import Mathlib

/-!
# Verification of the expense-tracker web application (src/app.py)

A shallow embedding of the data model and request handlers of the Flask
expense tracker. Python `float` amounts (SQLite `REAL` / Postgres `NUMERIC`)
are modelled as exact rationals `ℚ`; the SQLite backend's TEXT dates
(`YYYY-MM-DD` strings compared byte-wise) are modelled as `String` with
lexicographic comparison. Fallible hashing (`generate_password_hash`,
`check_password_hash`) is abstracted as function parameters, since the
handlers only ever call them opaquely.
-/

namespace ExpenseTracker

/-- A row of the `users` table (src/app.py, init_db): id, username,
password hash, is_admin flag (INTEGER DEFAULT 0, modelled as Bool). -/
structure User where
  id : Nat
  username : String
  password : String
  is_admin : Bool
deriving Repr, DecidableEq

/-- A row of the `expenses` table (src/app.py, init_db): id, owning
user_id, date (TEXT, ISO `YYYY-MM-DD`), category, description, amount. -/
structure Expense where
  id : Nat
  user_id : Nat
  date : String
  category : String
  description : String
  amount : ℚ
deriving Repr, DecidableEq

/-- A row of the `budgets` table (src/app.py, init_db): composite key
(user_id, month, year) declared as PRIMARY KEY, plus amount. -/
structure Budget where
  user_id : Nat
  month : String
  year : String
  amount : ℚ
deriving Repr, DecidableEq

/-- Observable responses a handler can produce: a rendered page with an
optional flash message, a redirect, a hard `"Unauthorized", 403`, a CSV
attachment, or the admin aggregate view. -/
inductive Response where
  | page (template : String) (flashMsg : Option String)
  | redirect (target : String)
  | forbidden
  | csvAttachment (content : String)
  | adminView (rows : List (Expense × String))
deriving Repr, DecidableEq

/-! ## Delete handler (src/app.py, `delete`, lines 345-357)

`DELETE FROM expenses WHERE id=? AND user_id=?`, commit, redirect to the
dashboard. The SQL DELETE removes every row matching both conditions and
does not distinguish zero affected rows from success. -/

/-- The store effect of `delete(id)` for session user `uid`: remove the
rows with this id owned by `uid`. -/
def deleteExpense (es : List Expense) (i uid : Nat) : List Expense :=
  es.filter (fun e => !(e.id == i && e.user_id == uid))

/-- The response of the `delete` handler: unconditionally a redirect to
the dashboard (`redirect(url_for("index"))`). -/
def deleteResponse : Response := .redirect "index"

/-! ## Add handler (src/app.py, `add_expense`, lines 274-301) -/

/-- Fresh id for an inserted expense row (SERIAL / AUTOINCREMENT). -/
def nextExpenseId (es : List Expense) : Nat :=
  es.foldl (fun m e => max m e.id) 0 + 1

/-- POST /add: `INSERT INTO expenses (user_id, date, category, description,
amount) VALUES (?,?,?,?,?)`, commit, redirect to the dashboard. The handler
performs no validation of the amount beyond `float()` parsing (parsing is
outside the embedding: `amount` arrives as a rational). -/
def addExpense (es : List Expense) (uid : Nat) (date category description : String)
    (amount : ℚ) : List Expense × Response :=
  (es ++ [⟨nextExpenseId es, uid, date, category, description, amount⟩],
   .redirect "index")

/-! ## Edit handler (src/app.py, `edit_expense`, lines 304-342)

`SELECT * FROM expenses WHERE id=? AND user_id=?`; if no row, respond
`"Unauthorized", 403`; otherwise (POST) `UPDATE expenses SET category=?,
description=?, amount=? WHERE id=? AND user_id=?` and redirect. The date
column is not part of the UPDATE. -/

/-- The POST branch of `edit_expense` for session user `uid`. -/
def editExpense (es : List Expense) (i uid : Nat) (category description : String)
    (amount : ℚ) : List Expense × Response :=
  match es.find? (fun e => e.id == i && e.user_id == uid) with
  | none => (es, .forbidden)
  | some _ =>
    (es.map (fun e =>
        if e.id == i && e.user_id == uid then
          { e with category := category, description := description, amount := amount }
        else e),
     .redirect "index")

/-! ## Registration (src/app.py, `register`, lines 110-145)

The POST branch strips the username, rejects passwords shorter than 6
characters, then rejects an already-present username (`SELECT id FROM
users WHERE username=?`, exact comparison), and otherwise inserts the
username with `generate_password_hash(password)`. The hash function is an
opaque parameter of the embedding. -/

/-- Fresh id for an inserted user row (SERIAL / AUTOINCREMENT). -/
def nextUserId (us : List User) : Nat :=
  us.foldl (fun m u => max m u.id) 0 + 1

/-- Python `str.strip()`: remove leading and trailing whitespace. -/
def pyStrip (s : String) : String :=
  ⟨((s.data.dropWhile Char.isWhitespace).reverse.dropWhile Char.isWhitespace).reverse⟩

/-- The POST branch of `register`. -/
def registerUser (hash : String → String) (us : List User)
    (username password : String) : List User × Response :=
  let uname := pyStrip username
  if password.length < 6 then
    (us, .page "register.html" (some "Password must be at least 6 characters."))
  else if (us.find? (fun u => u.username == uname)).isSome then
    (us, .page "register.html" (some "Username already exists."))
  else
    (us ++ [⟨nextUserId us, uname, hash password, false⟩], .redirect "login")

/-! ## Login (src/app.py, `login`, lines 148-175)

`SELECT * FROM users WHERE username=?`, `fetchone()`; if `not user or not
check_password_hash(user["password"], password)` flash "Invalid
credentials" and re-render the form; otherwise store (id, username,
is_admin) in the session and redirect. `check_password_hash` is an opaque
parameter. The second component of the result is the established session
identity (`none` when no session is established). -/

/-- The POST branch of `login`. -/
def loginUser (checkHash : String → String → Bool) (us : List User)
    (username password : String) : Response × Option User :=
  match us.find? (fun u => u.username == username) with
  | none => (.page "login.html" (some "Invalid credentials"), none)
  | some u =>
    if checkHash u.password password then (.redirect "index", some u)
    else (.page "login.html" (some "Invalid credentials"), none)

/-! ## Dashboard filters (src/app.py, `index`, lines 185-227)

`request.args.get` yields `None` for an absent parameter (modelled as
`none`) and the raw string for a supplied one. Each filter clause is added
only under Python truthiness (`if month:` etc.), so the empty string adds
no clause. The SQLite branch is modelled: `substr(date,6,2)` and
`substr(date,1,4)` extract the month and year of the TEXT date, and
`date >= ?` / `date <= ?` compare TEXT byte-wise (lexicographically). -/

/-- Python truthiness of an optional query-string parameter. -/
def truthy : Option String → Bool
  | none => false
  | some s => !(s == "")

/-- Byte-wise (lexicographic) string comparison used by SQLite for
`date >= ?` / `date <= ?` on TEXT columns. -/
def strLe (a b : String) : Bool := a == b || decide (a < b)

/-- The conjunction of the filter clauses the handler appends to
`SELECT * FROM expenses WHERE user_id=?`. -/
def matchesFilter (month year startDate endDate : Option String) (e : Expense) : Bool :=
  (!truthy month || ((e.date.drop 5).take 2 == month.getD "")) &&
  (!truthy year || (e.date.take 4 == year.getD "")) &&
  (!truthy startDate || strLe (startDate.getD "") e.date) &&
  (!truthy endDate || strLe e.date (endDate.getD ""))

/-- The expense list the dashboard query returns for session user `uid`. -/
def listExpenses (es : List Expense) (uid : Nat)
    (month year startDate endDate : Option String) : List Expense :=
  es.filter (fun e => e.user_id == uid && matchesFilter month year startDate endDate e)

/-! ## Analytics (src/app.py, `index`, lines 229-241)

`total = sum(float(e["amount"]) for e in expenses)`; the two summaries
are built by one left-to-right pass updating a dict keyed by the category
string and by `str(e["date"])[:7]`. Dicts are modelled as total functions
`String → ℚ` defaulting to 0, matching `d.get(k, 0) + amount`. -/

/-- The dashboard total. -/
def total (es : List Expense) : ℚ := (es.map Expense.amount).sum

/-- One pass of the analytics loop for a given key extractor: fold the
expense list, adding each amount at its key. -/
def summarize (key : Expense → String) (es : List Expense) : String → ℚ :=
  es.foldl (fun m e => fun k => if k = key e then m k + e.amount else m k) (fun _ => 0)

/-- `category_summary`, keyed by the exact category string. -/
def categorySummary (es : List Expense) : String → ℚ :=
  summarize Expense.category es

/-- The monthly key `str(e["date"])[:7]`. -/
def monthKey (e : Expense) : String := e.date.take 7

/-- `monthly_summary`, keyed by the first 7 characters of the date. -/
def monthlySummary (es : List Expense) : String → ℚ :=
  summarize monthKey es

/-- Budget lookup performed by the dashboard when both `month` and `year`
are truthy (src/app.py, lines 243-255). -/
def getBudget (bs : List Budget) (uid : Nat) (m y : String) : Option ℚ :=
  (bs.find? (fun b => b.user_id == uid && b.month == m && b.year == y)).map Budget.amount

/-! ## CSV export (src/app.py, `export_csv`, lines 361-386)

`SELECT date, category, description, amount FROM expenses WHERE
user_id=?`; then `csv.writer` emits a header record followed by one
record per row, fields comma-delimited, records terminated by CRLF, a
field quoted (with inner quotes doubled) only when it contains a
delimiter, quote or line-break character (QUOTE_MINIMAL). The response is
always a `text/csv` attachment; there is no branch on an empty row set.
The rendering of the numeric amount as text is an opaque parameter
`showAmt`. -/

/-- Doubling of quote characters inside a quoted field. -/
def csvEscapeChars : List Char → List Char
  | [] => []
  | c :: cs => if c = '"' then '"' :: '"' :: csvEscapeChars cs else c :: csvEscapeChars cs

/-- QUOTE_MINIMAL quoting of one field. -/
def csvQuote (f : String) : String :=
  if f.data.any (fun c => c == ',' || c == '"' || c == '\r' || c == '\n') then
    "\"" ++ ⟨csvEscapeChars f.data⟩ ++ "\""
  else f

/-- One CSV record: quoted fields joined by commas, CRLF-terminated. -/
def csvRecord (fields : List String) : String :=
  String.intercalate "," (fields.map csvQuote) ++ "\r\n"

/-- The records `export_csv` writes: the header, then one record per
owned expense with fields in order date, category, description, amount. -/
def exportCsvRecords (showAmt : ℚ → String) (es : List Expense) (uid : Nat) :
    List (List String) :=
  ["Date", "Category", "Description", "Amount"] ::
    (es.filter (fun e => e.user_id == uid)).map
      (fun e => [e.date, e.category, e.description, showAmt e.amount])

/-- The full response of `export_csv`: unconditionally a CSV attachment. -/
def exportCsv (showAmt : ℚ → String) (es : List Expense) (uid : Nat) : Response :=
  .csvAttachment (String.join ((exportCsvRecords showAmt es uid).map csvRecord))

/-! ## Budget upsert -/

/-- Modelled from the spec: no `POST /budget` handler exists in
src/app.py — only the `budgets` table schema with
`PRIMARY KEY (user_id, month, year)` is declared in `init_db`
(lines 83-91), and the dashboard reads budgets. Per spec §4.2,
`setBudget(userId, month, year, amount)` fails with `InvalidAmount` if
amount < 0 and otherwise atomically replaces any existing budget for the
same key (delete-then-insert upsert). -/
def setBudget (bs : List Budget) (uid : Nat) (m y : String) (a : ℚ) :
    List Budget × Response :=
  if a < 0 then (bs, .page "index.html" (some "InvalidAmount"))
  else
    (bs.filter (fun b => !(b.user_id == uid && b.month == m && b.year == y)) ++
       [⟨uid, m, y, a⟩],
     .redirect "index")

/-! ## Session and administrator view -/

/-- The three session facts established at login (src/app.py,
lines 169-171): user id, username, is_admin role flag. -/
structure Session where
  user_id : Nat
  username : String
  is_admin : Bool
deriving Repr, DecidableEq

/-- Modelled from the spec: no `GET /admin` handler exists in src/app.py —
only the `is_admin` column of the users table and the session role flag
are declared. Per spec §4.4 and §6, the administrator guard returns a
`Forbidden` (HTTP 403-equivalent) response with no further processing
when the session's role flag is not administrator, and administrators
receive the aggregate view over all users' expenses joined with the owner
username. -/
def adminPage (s : Session) (rows : List (Expense × String)) : Response :=
  if s.is_admin then .adminView rows else .forbidden

/-! ## Concrete example data used by the spec's aggregation example -/

/-- The spec's aggregation example rows: (Food, 10), (Food, 5), (Rent, 100). -/
def exampleExpenses : List Expense :=
  [⟨1, 1, "2024-03-01", "Food", "", 10⟩,
   ⟨2, 1, "2024-03-02", "Food", "", 5⟩,
   ⟨3, 1, "2024-03-15", "Rent", "", 100⟩]

/-- An expense dated 2024-03-15, for the monthly-key example. -/
def exampleMarchExpense : Expense := ⟨3, 1, "2024-03-15", "Rent", "", 100⟩

/-- The budget rows stored for the composite key (user, month, year). -/
def budgetRowsFor (bs : List Budget) (uid : Nat) (m y : String) : List Budget :=
  bs.filter (fun b => b.user_id == uid && b.month == m && b.year == y)

/-! # Helper lemmas -/

/-- A failed login (no session established) always produces the one
generic failure observable, whatever its cause. -/
theorem loginUser_eq_of_none (ch : String → String → Bool) (us : List User)
    (un pw : String) (h : (loginUser ch us un pw).2 = none) :
    loginUser ch us un pw =
      (Response.page "login.html" (some "Invalid credentials"), none) := by
  cases hfind : us.find? (fun u => u.username == un) with
  | none => simp [loginUser, hfind]
  | some u =>
    by_cases hch : ch u.password pw
    · simp [loginUser, hfind, hch] at h
    · simp [loginUser, hfind, hch]

/-- Unfolding the analytics fold: its value at a key is the accumulator's
value plus the sum of amounts of the expenses mapping to that key. -/
theorem summarize_foldl (key : Expense → String) (es : List Expense)
    (m : String → ℚ) (k : String) :
    es.foldl (fun m e => fun k => if k = key e then m k + e.amount else m k) m k =
      m k + ((es.filter (fun e => key e == k)).map Expense.amount).sum := by
  induction es generalizing m with
  | nil => simp
  | cons e es ih =>
    rw [List.foldl_cons, ih]
    by_cases h : key e = k
    · simp [List.filter_cons, h, add_assoc]
    · have h' : ¬(k = key e) := fun hk => h hk.symm
      simp [List.filter_cons, h, h']

/-- The per-key value of a summary equals the sum of amounts over the
expenses whose key matches. -/
theorem summarize_apply (key : Expense → String) (es : List Expense) (k : String) :
    summarize key es k =
      ((es.filter (fun e => key e == k)).map Expense.amount).sum := by
  unfold summarize
  rw [summarize_foldl]
  simp

/-! # Claim theorems -/

/-- C8: delete is idempotent — deleting the same id twice from the same
session yields the same store as deleting once, and the handler's
response (a redirect, never an error) is the same for both calls,
including when the id no longer matches any row. -/
theorem delete_idempotent (es : List Expense) (i uid : Nat) :
    deleteExpense (deleteExpense es i uid) i uid = deleteExpense es i uid ∧
    deleteResponse = Response.redirect "index" := by
  refine ⟨?_, rfl⟩
  simp [deleteExpense, List.filter_filter]

/-- C10: a dashboard filter parameter supplied as the empty string is
treated exactly like an absent parameter — it adds no constraint — and
with all parameters empty/absent the query returns every expense owned
by the session user. -/
theorem empty_filter_params_like_absent (es : List Expense) (uid : Nat) :
    listExpenses es uid (some "") (some "") (some "") (some "") =
      listExpenses es uid none none none none ∧
    listExpenses es uid none none none none =
      es.filter (fun e => e.user_id == uid) := by
  constructor <;> simp [listExpenses, matchesFilter, truthy]

/-- C7: authentication failure is uniform — any two failed logins
(whether the username is absent or the password hash does not match, for
any user table and any hash checker) produce exactly the same observable
result, so the two failure causes are indistinguishable to the caller. -/
theorem login_failure_uniform (ch₁ ch₂ : String → String → Bool)
    (us₁ us₂ : List User) (un₁ pw₁ un₂ pw₂ : String)
    (h₁ : (loginUser ch₁ us₁ un₁ pw₁).2 = none)
    (h₂ : (loginUser ch₂ us₂ un₂ pw₂).2 = none) :
    loginUser ch₁ us₁ un₁ pw₁ = loginUser ch₂ us₂ un₂ pw₂ := by
  rw [loginUser_eq_of_none ch₁ us₁ un₁ pw₁ h₁, loginUser_eq_of_none ch₂ us₂ un₂ pw₂ h₂]

/-- Witness for C7: a login against an empty user table (no such user)
and a login whose hash check fails (wrong password) yield literally the
same observable result. -/
theorem login_failure_uniform_witness :
    loginUser (fun _ _ => false) [] "alice" "x" =
      loginUser (fun _ _ => false) [⟨1, "bob", "h", false⟩] "bob" "y" :=
  login_failure_uniform (fun _ _ => false) (fun _ _ => false) []
    [⟨1, "bob", "h", false⟩] "alice" "x" "bob" "y" rfl rfl

/-- C4: the administrator guard — a session whose role flag is not
administrator receives Forbidden from GET /admin, and only administrator
sessions obtain the aggregate view. -/
theorem admin_guard (s : Session) (rows : List (Expense × String)) :
    (s.is_admin = false → adminPage s rows = Response.forbidden) ∧
    (s.is_admin = true → adminPage s rows = Response.adminView rows) := by
  cases h : s.is_admin <;> simp [adminPage, h]

/-- C2: the budget upsert law — for nonnegative amounts, setting the
budget for a key and then setting it again leaves exactly one budget row
for that key, holding the second amount. -/
theorem setBudget_upsert (bs : List Budget) (uid : Nat) (m y : String)
    (a₁ a₂ : ℚ) (h₁ : 0 ≤ a₁) (h₂ : 0 ≤ a₂) :
    budgetRowsFor (setBudget (setBudget bs uid m y a₁).1 uid m y a₂).1 uid m y =
      [⟨uid, m, y, a₂⟩] := by
  have h₁' : ¬a₁ < 0 := not_lt.mpr h₁
  have h₂' : ¬a₂ < 0 := not_lt.mpr h₂
  simp only [setBudget, if_neg h₁', if_neg h₂', budgetRowsFor]
  simp [List.filter_append, List.filter_filter]

/-- Witness for C2: setting 100 then 150 for (user 1, "03", "2024") on an
empty store leaves the single row with amount 150. -/
theorem setBudget_upsert_witness :
    budgetRowsFor
        (setBudget (setBudget [] 1 "03" "2024" (100 : ℚ)).1 1 "03" "2024" 150).1
        1 "03" "2024" =
      [⟨1, "03", "2024", 150⟩] :=
  setBudget_upsert [] 1 "03" "2024" 100 150 (by decide) (by decide)

/-- C5: aggregation correctness — the dashboard total is the sum of all
amounts; the category summary assigns to each category string
(case-sensitively) the sum of amounts of expenses with exactly that
category; the monthly summary keys each expense by the first 7 characters
of its date; and on the spec's example rows (Food 10, Food 5, Rent 100)
the total is 115, the category sums are Food 15 and Rent 100, and a date
2024-03-15 contributes to key "2024-03". -/
theorem aggregation_correct (es : List Expense) (c k : String) :
    total es = (es.map Expense.amount).sum ∧
    categorySummary es c =
      ((es.filter (fun e => e.category == c)).map Expense.amount).sum ∧
    monthlySummary es k =
      ((es.filter (fun e => e.date.take 7 == k)).map Expense.amount).sum ∧
    total exampleExpenses = 115 ∧
    categorySummary exampleExpenses "Food" = 15 ∧
    categorySummary exampleExpenses "Rent" = 100 ∧
    monthKey exampleMarchExpense = "2024-03" ∧
    monthlySummary exampleExpenses "2024-03" = 115 := by
  refine ⟨rfl, summarize_apply Expense.category es c,
    summarize_apply monthKey es k, ?_, ?_, ?_, rfl, ?_⟩
  · norm_num [total, exampleExpenses]
  · have h1 : ("Food" : String) ≠ "Rent" := by decide
    norm_num [categorySummary, summarize, exampleExpenses, h1]
  · have h1 : ("Rent" : String) ≠ "Food" := by decide
    norm_num [categorySummary, summarize, exampleExpenses, h1]
  · have h1 : monthKey ⟨1, 1, "2024-03-01", "Food", "", 10⟩ = "2024-03" := rfl
    have h2 : monthKey ⟨2, 1, "2024-03-02", "Food", "", 5⟩ = "2024-03" := rfl
    have h3 : monthKey ⟨3, 1, "2024-03-15", "Rent", "", 100⟩ = "2024-03" := rfl
    norm_num [monthlySummary, summarize, exampleExpenses, h1, h2, h3]

/-- Witness for C4: a non-admin session gets Forbidden; an admin session
gets the aggregate view. -/
theorem admin_guard_witness :
    adminPage ⟨2, "mallory", false⟩ [] = Response.forbidden ∧
    adminPage ⟨1, "root", true⟩ [] = Response.adminView [] :=
  ⟨(admin_guard ⟨2, "mallory", false⟩ []).1 rfl,
   (admin_guard ⟨1, "root", true⟩ []).2 rfl⟩

/-- Counterexample to C1: creating an expense with amount -5 is not
rejected — `add_expense` inserts the row and responds with the success
redirect, so the store changes and no ValidationError is produced. -/
theorem addExpense_negative_counterexample :
    addExpense [] 1 "2024-01-05" "Food" "" (-5) =
      ([⟨1, 1, "2024-01-05", "Food", "", -5⟩], Response.redirect "index") := rfl

/-- C1 amended: for a negative amount, expense creation inserts the row
with that amount and redirects as on success, expense update (of an owned
id) applies the negative amount to the targeted row and redirects; only
the spec-modelled budget upsert rejects with InvalidAmount and leaves the
budgets unchanged. -/
theorem negative_amount_amended (es : List Expense) (bs : List Budget)
    (uid i : Nat) (d c desc m y : String) (a : ℚ) (ha : a < 0)
    (howned : (es.find? (fun e => e.id == i && e.user_id == uid)).isSome) :
    addExpense es uid d c desc a =
      (es ++ [⟨nextExpenseId es, uid, d, c, desc, a⟩], Response.redirect "index") ∧
    (editExpense es i uid c desc a).2 = Response.redirect "index" ∧
    (∀ e ∈ (editExpense es i uid c desc a).1,
      e.id = i → e.user_id = uid → e.amount = a) ∧
    setBudget bs uid m y a = (bs, Response.page "index.html" (some "InvalidAmount")) := by
  obtain ⟨e0, he0⟩ := Option.isSome_iff_exists.mp howned
  refine ⟨rfl, ?_, ?_, ?_⟩
  · simp [editExpense, he0]
  · intro e' hmem hid huid
    simp only [editExpense, he0, List.mem_map] at hmem
    obtain ⟨x, hx, hfx⟩ := hmem
    by_cases hcond : (x.id == i && x.user_id == uid) = true
    · rw [if_pos hcond] at hfx
      rw [← hfx]
    · rw [if_neg hcond] at hfx
      subst hfx
      exact absurd (by simp [hid, huid]) hcond
  · simp [setBudget, if_pos ha]

/-- Witness for the amended C1: with amount -5, creation appends the row
and budget-set rejects leaving the store unchanged. -/
theorem negative_amount_amended_witness :
    addExpense [⟨1, 1, "2024-01-05", "Food", "x", 10⟩] 1 "2024-02-01" "Food" "y" (-5) =
      ([⟨1, 1, "2024-01-05", "Food", "x", 10⟩, ⟨2, 1, "2024-02-01", "Food", "y", -5⟩],
       Response.redirect "index") ∧
    setBudget [] 1 "03" "2024" (-5) =
      ([], Response.page "index.html" (some "InvalidAmount")) := by
  have h := negative_amount_amended [⟨1, 1, "2024-01-05", "Food", "x", 10⟩] [] 1 1
    "2024-02-01" "Food" "y" "03" "2024" (-5) (by decide) (by decide)
  exact ⟨h.1.trans rfl, h.2.2.2⟩

/-- Counterexample to C3: deleting another user's expense does not fail
with a 403 — the store is left unchanged but the handler responds with
the success redirect, not Forbidden. -/
theorem delete_nonowner_counterexample :
    deleteExpense [⟨1, 1, "2024-01-05", "Food", "", 10⟩] 1 2 =
      [⟨1, 1, "2024-01-05", "Food", "", 10⟩] ∧
    deleteResponse ≠ Response.forbidden := by
  exact ⟨rfl, fun h => Response.noConfusion h⟩

/-- C3 amended: for an expense owned by U and a session authenticated as
V ≠ U, an edit request fails with the 403 response and leaves the store
unchanged, while a delete request also leaves the store unchanged but
responds with the success redirect (a silent no-op), not a 403. -/
theorem nonowner_edit_delete_amended (es : List Expense) (i U V : Nat)
    (c d : String) (a : ℚ) (e : Expense) (he : e ∈ es) (heid : e.id = i)
    (heu : e.user_id = U)
    (hown : ∀ e' ∈ es, e'.id = i → e'.user_id = U) (hV : V ≠ U) :
    editExpense es i V c d a = (es, Response.forbidden) ∧
    deleteExpense es i V = es ∧
    deleteResponse = Response.redirect "index" := by
  have hcond : ∀ x ∈ es, (x.id == i && x.user_id == V) = false := by
    intro x hx
    by_cases hxi : x.id = i
    · have hxu : x.user_id = U := hown x hx hxi
      have hUV : (U == V) = false := beq_eq_false_iff_ne.mpr (Ne.symm hV)
      simp [hxu, hUV]
    · have hxi' : (x.id == i) = false := beq_eq_false_iff_ne.mpr hxi
      simp [hxi']
  have hfind : es.find? (fun x => x.id == i && x.user_id == V) = none :=
    List.find?_eq_none.mpr (fun x hx => by simp [hcond x hx])
  refine ⟨?_, ?_, rfl⟩
  · simp [editExpense, hfind]
  · unfold deleteExpense
    rw [List.filter_eq_self]
    intro x hx
    simp [hcond x hx]

/-- Witness for the amended C3: expense 1 is owned by user 1; from a
session as user 2, edit yields 403 with the store unchanged and delete
yields the redirect with the store unchanged. -/
theorem nonowner_edit_delete_amended_witness :
    editExpense [⟨1, 1, "2024-01-05", "Food", "", 10⟩] 1 2 "Food" "" 3 =
      ([⟨1, 1, "2024-01-05", "Food", "", 10⟩], Response.forbidden) ∧
    deleteExpense [⟨1, 1, "2024-01-05", "Food", "", 10⟩] 1 2 =
      [⟨1, 1, "2024-01-05", "Food", "", 10⟩] ∧
    deleteResponse = Response.redirect "index" :=
  nonowner_edit_delete_amended [⟨1, 1, "2024-01-05", "Food", "", 10⟩] 1 1 2 "Food" ""
    3 ⟨1, 1, "2024-01-05", "Food", "", 10⟩ (by decide) rfl rfl (by decide) (by decide)

/-- Counterexample to C6: a user owning zero expenses does not get a
redirect with a notice — `export_csv` returns a header-only CSV
attachment. -/
theorem exportCsv_empty_counterexample :
    exportCsv (fun _ => "0") [] 1 =
      Response.csvAttachment "Date,Category,Description,Amount\r\n" := by decide

/-- C6 amended: for every user, `export_csv` always returns a CSV
attachment whose records are the header followed by one record per owned
expense — N owned expenses yield N+1 records (header-only when N = 0, no
redirect) — with fields in order Date, Category, Description, Amount. -/
theorem exportCsv_amended (showAmt : ℚ → String) (es : List Expense) (uid : Nat) :
    exportCsv showAmt es uid =
      Response.csvAttachment
        (String.join ((exportCsvRecords showAmt es uid).map csvRecord)) ∧
    (exportCsvRecords showAmt es uid).length =
      (es.filter (fun e => e.user_id == uid)).length + 1 ∧
    (exportCsvRecords showAmt es uid).head? =
      some ["Date", "Category", "Description", "Amount"] ∧
    ∀ j : Nat,
      (exportCsvRecords showAmt es uid)[j + 1]? =
        ((es.filter (fun e => e.user_id == uid))[j]?).map
          (fun e => [e.date, e.category, e.description, showAmt e.amount]) := by
  refine ⟨rfl, ?_, rfl, ?_⟩
  · simp [exportCsvRecords]
  · intro j
    simp [exportCsvRecords]

/-- Counterexample to C9: registering an existing username with a short
password is rejected with the weak-password message, not the
duplicate-username one. -/
theorem register_duplicate_counterexample :
    registerUser (fun s => s) [⟨1, "alice", "h", false⟩] "alice" "abc" =
      ([⟨1, "alice", "h", false⟩],
       Response.page "register.html"
         (some "Password must be at least 6 characters.")) := rfl

/-- C9 amended: a registration whose trimmed username already exists
(case-sensitively) is always rejected with no new user created and the
existing accounts unchanged; the reported error is the weak-password one
when the password is shorter than 6 characters (that check runs first),
and the duplicate-username one otherwise. -/
theorem register_duplicate_amended (hash : String → String) (us : List User)
    (username password : String)
    (hdup : ∃ u ∈ us, u.username = pyStrip username) :
    (registerUser hash us username password).1 = us ∧
    (registerUser hash us username password).2 =
      (if password.length < 6 then
         Response.page "register.html" (some "Password must be at least 6 characters.")
       else Response.page "register.html" (some "Username already exists.")) := by
  have hfind : (us.find? (fun u => u.username == pyStrip username)).isSome := by
    rw [List.find?_isSome]
    obtain ⟨u, hu, hname⟩ := hdup
    exact ⟨u, hu, by simp [hname]⟩
  by_cases hlen : password.length < 6
  · simp [registerUser, hlen]
  · simp [registerUser, hlen, hfind]

/-- Witness for the amended C9: registering " alice " (trimming to the
existing "alice") with a long password is rejected with the
duplicate-username message and the user table is unchanged. -/
theorem register_duplicate_amended_witness :
    (registerUser (fun s => s) [⟨1, "alice", "h", false⟩] " alice " "longpass").1 =
      [⟨1, "alice", "h", false⟩] ∧
    (registerUser (fun s => s) [⟨1, "alice", "h", false⟩] " alice " "longpass").2 =
      Response.page "register.html" (some "Username already exists.") := by
  have h := register_duplicate_amended (fun s => s) [⟨1, "alice", "h", false⟩]
    " alice " "longpass" ⟨⟨1, "alice", "h", false⟩, by decide, by decide⟩
  exact ⟨h.1, h.2.trans (by decide)⟩

end ExpenseTracker
